import Mathlib

/-!
Verification of the science-frame reduction core of `pypeit/scienceimage.py`
(class `ScienceImage` and its bit mask `ScienceImageBitMask`).

Shallow embedding conventions:
* 2D images are modelled as functions `ℕ → α` from a flattened pixel index;
  reductions over a whole image (`np.sum(img[region])`) take an explicit
  pixel count `npix`.
* Floating-point values are modelled as rationals `ℚ`.  Rationals have no
  NaN/Inf, so `np.isfinite` is modelled as the constantly-true predicate
  `isfiniteQ` (the structure of each check is kept).
* Frame stacks (`sciimg_stack`, ...) are lists of per-pixel functions.
* External collaborators (`processimages.ProcessImages.process`,
  `procimg.lacosmic`, `astropy.stats.SigmaClip`, `skysub.global_skysub`,
  `skysub.local_skysub_extract`, `spectrograph.slitmask`) and the detector
  constants are bundled in a `Services` record and treated as opaque
  functions of their inputs, per the spec's external-interface contracts.
* Python-level failures are modelled by `Except PyError`: `msgs.error`
  becomes `PyError.pypeitError`, a `None` dereference becomes
  `PyError.typeError`, use of a never-assigned local becomes
  `PyError.unboundLocal`, indexing an empty stack becomes
  `PyError.indexError`.
-/

/-- Kinds of run-aborting failures of the Python code. -/
inductive PyError where
  | pypeitError : String → PyError
  | typeError : String → PyError
  | unboundLocal : String → PyError
  | indexError : String → PyError
deriving DecidableEq, Repr

/-- Bit index of the `BPM` flag of `ScienceImageBitMask` (declaration order). -/
def bitBPM : ℕ := 0

/-- Bit index of the `CR` flag. -/
def bitCR : ℕ := 1

/-- Bit index of the `SATURATION` flag. -/
def bitSaturation : ℕ := 2

/-- Bit index of the `MINCOUNTS` flag. -/
def bitMincounts : ℕ := 3

/-- Bit index of the `OFFSLITS` flag. -/
def bitOffslits : ℕ := 4

/-- Bit index of the `IS_NAN` flag. -/
def bitIsNan : ℕ := 5

/-- Bit index of the `IVAR0` flag. -/
def bitIvar0 : ℕ := 6

/-- Bit index of the `IVAR_NAN` flag. -/
def bitIvarNan : ℕ := 7

/-- Bit index of the `EXTRACT` flag (set literally as `np.uint64(2**8)` in
`local_skysub_extract`). -/
def bitExtract : ℕ := 8

/-- Modelled from the spec: `pypeit.bitmask.BitMask.turn_on` is code of this
repository that is not under `src/` (only `scienceimage.py` is).  Per the
spec's BitMask contract it "sets the bit" named by the flag and returns the
updated value.  Mask values stay below `2^9`, far below the `uint16` chosen
by `minimum_dtype` for 9 flags, so `ℕ` needs no wrap-around. -/
def turn_on (v : ℕ) (bit : ℕ) : ℕ := v ||| 2 ^ bit

/-- Modelled from the spec: `np.isfinite` on a value.  Rationals model finite
floats only, so every modelled value is finite; the check is kept so the
shape of `_build_mask` matches the source. -/
def isfiniteQ (_x : ℚ) : Bool := true

/-- Modelled from the spec: `pypeit.utils.calc_ivar` is not under `src/`.
The spec defines inverse variance as the "reciprocal of per-pixel noise
variance; non-positive/non-finite values denote undefined" (undefined ↦ 0). -/
def calc_ivar (v : ℚ) : ℚ := if 0 < v then 1 / v else 0

/-- Python `~` applied to a plain `bool`: bools are ints, so `~True = -2`
and `~False = -1` (integer bitwise complement, NOT logical negation). -/
def tildeBool (b : Bool) : ℤ := if b then -2 else -1

/-- Python truthiness of an integer: nonzero is truthy. -/
def truthy (i : ℤ) : Bool := decide (i ≠ 0)

/-- External collaborators and detector constants consumed by
`ScienceImage` (spec §6): detector saturation / minimum-counts levels,
`procimg.lacosmic` (via `build_crmask`), the astropy sigma-clip stack
rejection, `spectrograph.slitmask`, `skysub.global_skysub` and
`skysub.local_skysub_extract`.  The fitters are functions of the slit
index: for a fixed reduction state every other argument the source passes
(images, edges, `inmask`, ...) is determined by the slit. -/
structure LSEFit where
  sky : ℕ → ℚ
  obj : ℕ → ℚ
  ivar : ℕ → ℚ
  emask : ℕ → Bool

structure Services where
  saturation : ℚ
  mincountsLevel : ℚ
  lacosmic : (ℕ → ℚ) → (ℕ → ℚ) → ℕ → Bool
  sigclipStack : List (ℕ → ℚ) → List (ℕ → ℕ) → List (ℕ → Bool)
  spectSlitmask : ℕ → ℕ → ℤ
  globalFit : ℕ → ℕ → ℚ
  localFit : ℕ → LSEFit

/-- Per-pixel body of `ScienceImage._build_mask` (lines 723-781): starting
from 0, turn on each applicable bit in source order.  `mincounts` is the
Python truthiness of the `mincounts` argument; `slitPix` is `None` when the
`slitmask` argument is `None` (callers always pass `self.slitmask`, so the
guard `slitmask is not None` and the array read `self.slitmask == -1`
coincide and are modelled by one optional argument). -/
def build_mask_pix (saturation mincountsLevel : ℚ) (bpm cr : Bool) (img ivar : ℚ)
    (mincounts : Bool) (slitPix : Option ℤ) : ℕ :=
  let m : ℕ := 0
  let m := if bpm then turn_on m bitBPM else m
  let m := if cr then turn_on m bitCR else m
  let m := if saturation ≤ img then turn_on m bitSaturation else m
  let m := if mincounts ∧ img ≤ mincountsLevel then turn_on m bitMincounts else m
  let m := match slitPix with
    | some v => if v = -1 then turn_on m bitOffslits else m
    | none => m
  let m := if ¬ isfiniteQ img then turn_on m bitIsNan else m
  let m := if ¬ 0 < ivar then turn_on m bitIvar0 else m
  let m := if ¬ isfiniteQ ivar then turn_on m bitIvarNan else m
  m

/-- `ScienceImage._build_mask`: the composite bit-value mask, as a pure
per-pixel map.  It reads only its image arguments, `self.bpm`, the detector
saturation/mincounts levels and (under the guard) the slit map. -/
def build_mask (e : Services) (bpm : ℕ → Bool) (sciimg sciivar : ℕ → ℚ)
    (crmask : ℕ → Bool) (mincounts : Bool) (slitmask : Option (ℕ → ℤ)) : ℕ → ℕ :=
  fun p =>
    build_mask_pix e.saturation e.mincountsLevel (bpm p) (crmask p) (sciimg p) (sciivar p)
      mincounts (slitmask.map fun sm => sm p)

/-- Output of the external per-file frame processing consumed by
`read_stack` (`this_proc.process`, `build_rawvarframe`, `build_rn2img`). -/
structure RawFrame where
  sciimg : ℕ → ℚ
  rawvar : ℕ → ℚ
  rn2img : ℕ → ℚ

/-- One slot of the stacks allocated by `read_stack`. -/
structure SciFrame where
  sciimg : ℕ → ℚ
  sciivar : ℕ → ℚ
  rn2img : ℕ → ℚ
  crmask : ℕ → Bool
  mask : ℕ → ℕ

/-- Body of the `read_stack` per-file loop (lines 563-588): inverse variance
from the raw variance, cosmic-ray mask via `build_crmask` only when
`cosmics` is requested, and the per-frame composite mask via `_build_mask`
with its defaults (`mincounts=True`, `slitmask=None`). -/
def read_stack_frame (e : Services) (cosmics : Bool) (bpm : ℕ → Bool) (f : RawFrame) :
    SciFrame :=
  let sciivar : ℕ → ℚ := fun p => calc_ivar (f.rawvar p)
  let crmask : ℕ → Bool := if cosmics then e.lacosmic f.sciimg sciivar else fun _ => false
  { sciimg := f.sciimg
    sciivar := sciivar
    rn2img := f.rn2img
    crmask := crmask
    mask := build_mask e bpm f.sciimg sciivar crmask true none }

/-- `ScienceImage.read_stack`: process each file of the list into the stacks. -/
def read_stack (e : Services) (cosmics : Bool) (bpm : ℕ → Bool) (files : List RawFrame) :
    List SciFrame :=
  files.map (read_stack_frame e cosmics bpm)

/-- The weight vector of `proc` (lines 620 and 624): `1/n_sci` for each
science frame and, when difference imaging, `-1/n_bg` for each background
frame. -/
def procWeights (nsci nbg : ℕ) (ir_redux : Bool) : List ℚ :=
  if ir_redux then
    List.replicate nsci (1 / (nsci : ℚ)) ++ List.replicate nbg (-(1 / (nbg : ℚ)))
  else
    List.replicate nsci (1 / (nsci : ℚ))

/-- `weights_stack` at one pixel (line 660, `np.einsum`): each frame's weight
times its outmask entry cast to a float. -/
def usedWeights (weights : List ℚ) (outs : List Bool) : List ℚ :=
  List.zipWith (fun w o => w * (if o then (1 : ℚ) else 0)) weights outs

/-- `weights_sum` at one pixel (line 661). -/
def weightsSum (weights : List ℚ) (outs : List Bool) : ℚ :=
  (usedWeights weights outs).sum

/-- The normalisation denominator `weights_sum + (weights_sum == 0.0)`
(lines 664-667): numpy adds the boolean as 0/1, so a zero weight sum divides
by one instead of zero. -/
def combineDen (ws : ℚ) : ℚ := ws + (if ws = 0 then 1 else 0)

/-- Weighted combination of one pixel across the stack (line 664):
`np.sum(vals*weights_stack) / (weights_sum + (weights_sum == 0.0))`. -/
def combineVal (weights : List ℚ) (outs : List Bool) (vals : List ℚ) : ℚ :=
  (List.zipWith (· * ·) vals (usedWeights weights outs)).sum
    / combineDen (weightsSum weights outs)

/-- Squared-weight combination of one pixel across the stack (lines 665 and
667), used for the variance and read-noise² images. -/
def combineVar (weights : List ℚ) (outs : List Bool) (vals : List ℚ) : ℚ :=
  (List.zipWith (· * ·) vals ((usedWeights weights outs).map (fun w => w ^ 2))).sum
    / combineDen (weightsSum weights outs) ^ 2

/-- The stacked cosmic-ray mask at one pixel (line 663):
`np.sum(crmask_stack, axis=0) == nfiles` — flagged only where every frame
flagged it. -/
def combineCrPix (crs : List Bool) (nfiles : ℕ) : Bool :=
  decide (crs.count true = nfiles)

/-- `all_files` of `proc` (lines 616 and 622): science frames followed by
the background frames when difference imaging, else the science frames. -/
def procAllFiles (files bgfiles : List RawFrame) : List RawFrame :=
  if 0 < bgfiles.length then files ++ bgfiles else files

/-- The stacks `proc` reads (line 626-627): cosmic-ray detection per frame
only when not difference imaging. -/
def procStack (e : Services) (files bgfiles : List RawFrame) (bpm : ℕ → Bool) :
    List SciFrame :=
  read_stack e (!decide (0 < bgfiles.length)) bpm (procAllFiles files bgfiles)

/-- The images returned by `proc`. -/
structure ProcOut where
  sciimg : ℕ → ℚ
  sciivar : ℕ → ℚ
  rn2img : ℕ → ℚ
  mask : ℕ → ℕ
  crmask : ℕ → Bool

/-- `ScienceImage.proc` (lines 593-688).  `files`/`bgfiles` stand for the
constructor's `file_list`/`bg_file_list` after the external per-file
processing; `ir_redux` is true exactly when the background list is nonempty
(constructor lines 131-136).  Faithful control-flow points:
* sigma clipping together with difference imaging is a fatal `msgs.error`
  raised before any frame is read (lines 613-615);
* with `sigma_clip` and `nsci ≤ 2` the local `outmask_stack` is never
  assigned, so its use at line 660 raises `UnboundLocalError`;
* the post-stack mask is built with `mincounts=~self.ir_redux` (line 672):
  `~` on a Python bool is the integer complement, which is truthy for both
  `True` and `False`;
* with one science frame the stacked branch is skipped and frame 0 passes
  through; in difference mode the cosmic-ray mask is then rebuilt on the
  combined image (lines 680-681).
The `sigrej` table (lines 629-641) only parameterises the external sigma
clipper and is absorbed into `Services.sigclipStack`. -/
def proc (e : Services) (files bgfiles : List RawFrame) (bpm : ℕ → Bool)
    (sigma_clip : Bool) : Except PyError ProcOut :=
  let nsci := files.length
  let nbg := bgfiles.length
  let ir_redux : Bool := decide (0 < nbg)
  if ir_redux && sigma_clip then
    .error (.pypeitError "You cannot sigma clip with difference imaging as this will reject objects")
  else
    let weights := procWeights nsci nbg ir_redux
    let stack := procStack e files bgfiles bpm
    let nfiles := (procAllFiles files bgfiles).length
    if 1 < nsci then
      let outmaskStack : Option (List (ℕ → Bool)) :=
        if sigma_clip then
          if 2 < nsci then
            some (e.sigclipStack (stack.map (·.sciimg)) (stack.map (·.mask)))
          else
            none
        else
          some (stack.map (fun f => fun p => decide (f.mask p = 0)))
      match outmaskStack with
      | none => .error (.unboundLocal "outmask_stack")
      | some oms =>
        let outsAt : ℕ → List Bool := fun p => oms.map (fun o => o p)
        let crmask0 : ℕ → Bool := fun p =>
          combineCrPix (stack.map (fun f => f.crmask p)) nfiles
        let sciimg : ℕ → ℚ := fun p =>
          combineVal weights (outsAt p) (stack.map (fun f => f.sciimg p))
        let varfinal : ℕ → ℚ := fun p =>
          combineVar weights (outsAt p) (stack.map (fun f => calc_ivar (f.sciivar p)))
        let sciivar : ℕ → ℚ := fun p => calc_ivar (varfinal p)
        let rn2img : ℕ → ℚ := fun p =>
          combineVar weights (outsAt p) (stack.map (fun f => f.rn2img p))
        let mask := build_mask e bpm sciimg sciivar crmask0 (truthy (tildeBool ir_redux)) none
        let crmask := if ir_redux then e.lacosmic sciimg sciivar else crmask0
        .ok { sciimg := sciimg, sciivar := sciivar, rn2img := rn2img, mask := mask,
              crmask := crmask }
    else
      match stack with
      | [] => .error (.indexError "index 0 is out of bounds")
      | f :: _ =>
        let crmask := if ir_redux then e.lacosmic f.sciimg f.sciivar else f.crmask
        .ok { sciimg := f.sciimg, sciivar := f.sciivar, rn2img := f.rn2img,
              mask := f.mask, crmask := crmask }

/-- The per-instance mutable attributes of `ScienceImage` that the sky
subtraction / extraction stages read (constructor lines 148-184: all start
as `None`).  `tslits_dict` is reduced to the number of traced slits
(`tslits_dict['lcen'].shape[1]`), the only piece this module consumes
besides handing edges to the external fitters.  `npix` is the (fixed)
number of pixels of the detector image, used for `np.sum` reductions. -/
structure SciState where
  sciimg : Option (ℕ → ℚ)
  sciivar : Option (ℕ → ℚ)
  rn2img : Option (ℕ → ℚ)
  global_sky : Option (ℕ → ℚ)
  tilts : Option (ℕ → ℚ)
  tslits_dict : Option ℕ
  maskslits : Option (List Bool)
  slitmask : Option (ℕ → ℤ)
  mask : Option (ℕ → ℕ)
  crmask : Option (ℕ → Bool)
  bpm : Option (ℕ → Bool)
  npix : ℕ

/-- A freshly constructed `ScienceImage`: every pipeline attribute is `None`. -/
def freshScienceImage : SciState :=
  { sciimg := none, sciivar := none, rn2img := none, global_sky := none,
    tilts := none, tslits_dict := none, maskslits := none, slitmask := none,
    mask := none, crmask := none, bpm := none, npix := 0 }

/-- `ScienceImage._get_goodslits` (lines 527-548): use the argument if given;
otherwise use the stored `maskslits`; otherwise reduce all slits, sizing the
array from `self.tslits_dict['lcen'].shape[1]` — which, on a fresh instance,
subscripts `None` and raises `TypeError` before any prerequisite check. -/
def get_goodslits (st : SciState) (maskslitsArg : Option (List Bool)) :
    Except PyError (List Bool) :=
  match maskslitsArg with
  | some ms => .ok ms
  | none =>
    match st.maskslits with
    | some ms => .ok ms
    | none =>
      match st.tslits_dict with
      | some nslits => .ok (List.replicate nslits false)
      | none => .error (.typeError "'NoneType' object is not subscriptable")

/-- The indices `np.where(~self.maskslits)[0]` of the slits to reduce. -/
def gdslitsOf (ms : List Bool) : List ℕ :=
  (List.range ms.length).filter (fun i => !(ms.getD i true))

/-- The `self.slitmask = spectrograph.slitmask(tslits_dict, ...) if None`
idiom (lines 341 / 411 / 460): reuse the stored slit map, else build it from
the traced slits; with no traced slits the external call dereferences `None`. -/
def resolveSlitmask (e : Services) (st : SciState) : Except PyError (ℕ → ℤ) :=
  match st.slitmask with
  | some sm => .ok sm
  | none =>
    match st.tslits_dict with
    | some nslits => .ok (e.spectSlitmask nslits)
    | none => .error (.typeError "'NoneType' object is not subscriptable")

/-- The four output images `local_skysub_extract` accumulates slit by slit. -/
structure LSEAcc where
  skymodel : ℕ → ℚ
  objmodel : ℕ → ℚ
  ivarmodel : ℕ → ℚ
  extractmask : ℕ → Bool

/-- The values returned by `local_skysub_extract`. -/
structure LSEOut where
  skymodel : ℕ → ℚ
  objmodel : ℕ → ℚ
  ivarmodel : ℕ → ℚ
  outmask : ℕ → ℕ
  extractmask : ℕ → Bool

/-- One iteration of the `local_skysub_extract` slit loop (lines 488-505): a
slit with at least one object gets the external fitter's four images written
into its region of the accumulators; a slit with no objects is skipped. -/
def lse_step (e : Services) (slitmask : ℕ → ℤ) (sobjs : List ℕ) (acc : LSEAcc)
    (slit : ℕ) : LSEAcc :=
  if sobjs.any (fun s => s = slit) then
    let thismask : ℕ → Bool := fun p => decide (slitmask p = (slit : ℤ))
    let r := e.localFit slit
    { skymodel := fun p => if thismask p then r.sky p else acc.skymodel p
      objmodel := fun p => if thismask p then r.obj p else acc.objmodel p
      ivarmodel := fun p => if thismask p then r.ivar p else acc.ivarmodel p
      extractmask := fun p => if thismask p then r.emask p else acc.extractmask p }
  else
    acc

/-- Lines 471-510 of `local_skysub_extract`: initialise the outputs to the
copied global sky / zeros / copied input ivar / "input mask clear", loop over
the good slits, then OR the `EXTRACT` bit (`+= np.uint64(2**8)`) into the
copied mask at `iextract = (self.mask == 0) & (self.extractmask == False)` —
only originally-valid pixels can receive it. -/
def lse_core (e : Services) (slitmask : ℕ → ℤ) (mask : ℕ → ℕ)
    (global_sky sciivar : ℕ → ℚ) (gdslits : List ℕ) (sobjs : List ℕ) : LSEOut :=
  let init : LSEAcc :=
    { skymodel := global_sky
      objmodel := fun _ => 0
      ivarmodel := sciivar
      extractmask := fun p => decide (mask p = 0) }
  let fin := gdslits.foldl (lse_step e slitmask sobjs) init
  let outmask : ℕ → ℕ := fun p =>
    if mask p = 0 ∧ fin.extractmask p = false then mask p + 2 ^ 8 else mask p
  { skymodel := fin.skymodel, objmodel := fin.objmodel, ivarmodel := fin.ivarmodel,
    outmask := outmask, extractmask := fin.extractmask }

/-- `ScienceImage.local_skysub_extract` (lines 432-524).  `sobjs` is the list
of the slit ids of the found objects (`self.sobjs.slitid`); the wavelength
image is assigned to the state first, so it is always "present" for the
`_chk_objs` test.  Source ordering kept: `_get_goodslits` runs first (and on
a fresh instance dies subscripting `None`), then the slit-map resolution,
then the `_chk_objs` prerequisite check whose failure is the single
`msgs.error` below, then the allocation + slit loop (`lse_core`).  A `None`
composite mask would make `np.copy(self.mask)` a 0-d object array whose
later boolean indexing raises `TypeError`; it is modelled as that error. -/
def local_skysub_extract (e : Services) (st : SciState) (sobjs : List ℕ)
    (_waveimg : ℕ → ℚ) (maskslitsArg : Option (List Bool)) : Except PyError LSEOut :=
  match get_goodslits st maskslitsArg with
  | .error err => .error err
  | .ok maskslits =>
    match resolveSlitmask e st with
    | .error err => .error err
    | .ok slitmask =>
      match st.sciimg, st.sciivar, st.rn2img, st.global_sky, st.tilts, st.tslits_dict with
      | some _, some sciivar, some _, some global_sky, some _, some _ =>
        match st.mask with
        | some mask =>
          .ok (lse_core e slitmask mask global_sky sciivar (gdslitsOf maskslits) sobjs)
        | none => .error (.typeError "unsupported operand type")
      | _, _, _, _, _, _ =>
        .error (.pypeitError "All quantities necessary to run local_skysub_extract() have not been set.")

/-- `np.sum(img[region])` over the `npix` pixels of the detector image. -/
def maskedSum (npix : ℕ) (region : ℕ → Bool) (f : ℕ → ℚ) : ℚ :=
  (((List.range npix).filter (fun p => region p)).map f).sum

/-- Accumulator of the `global_skysub` slit loop: the growing sky image and
the in-place mutated `self.maskslits`. -/
structure GSAcc where
  sky : ℕ → ℚ
  maskslits : List Bool

/-- One iteration of the `global_skysub` slit loop (lines 353-368): write the
external fit into this slit's region of the sky image, then mark the slit
bad when the freshly written region sums to exactly zero
(`np.sum(self.global_sky[thismask]) == 0.`). -/
def gs_step (e : Services) (npix : ℕ) (slitmask : ℕ → ℤ) (acc : GSAcc) (slit : ℕ) :
    GSAcc :=
  let thismask : ℕ → Bool := fun p => decide (slitmask p = (slit : ℤ))
  let sky : ℕ → ℚ := fun p => if thismask p then e.globalFit slit p else acc.sky p
  { sky := sky
    maskslits :=
      if maskedSum npix thismask sky = 0 then acc.maskslits.set slit true
      else acc.maskslits }

/-- The total-failure signal of spec §4.4: the fitted sky model of `slit`
sums to exactly zero over that slit's pixels. -/
def slitFailed (e : Services) (npix : ℕ) (slitmask : ℕ → ℤ) (slit : ℕ) : Prop :=
  maskedSum npix (fun p => decide (slitmask p = (slit : ℤ))) (e.globalFit slit) = 0

instance (e : Services) (npix : ℕ) (slitmask : ℕ → ℤ) (slit : ℕ) :
    Decidable (slitFailed e npix slitmask slit) := by
  unfold slitFailed; infer_instance

/-- The `self.mask = self._build_mask(...) if self.mask is None` idiom of
`global_skysub` (line 342). -/
def gsResolveMask (e : Services) (st : SciState) (slitmask : ℕ → ℤ) :
    Except PyError (ℕ → ℕ) :=
  match st.mask with
  | some m => .ok m
  | none =>
    match st.sciimg, st.sciivar, st.crmask, st.bpm with
    | some si, some siv, some cr, some bpm =>
      .ok (build_mask e bpm si siv cr true (some slitmask))
    | _, _, _, _ => .error (.typeError "'NoneType' object has no attribute")

/-- `ScienceImage.global_skysub` (lines 310-386): assign `tslits_dict` and
`tilts`, resolve the good slits and slit map, zero the sky image, loop over
the good slits (`gs_step`), then optionally re-run cosmic-ray detection on
the sky-subtracted image and rebuild the composite mask.  The returned
state carries the updated `global_sky`, the in-place mutated `maskslits`
and, when `update_crmask`, the rebuilt `crmask`/`mask`.  The `skymask`
intersection only feeds the external fitter's `inmask` and is absorbed into
`Services.globalFit`. -/
def global_skysub (e : Services) (st0 : SciState) (nslits : ℕ) (tilts : ℕ → ℚ)
    (update_crmask : Bool) (maskslitsArg : Option (List Bool)) :
    Except PyError SciState :=
  let st := { st0 with tslits_dict := some nslits, tilts := some tilts }
  match get_goodslits st maskslitsArg with
  | .error err => .error err
  | .ok maskslits =>
    match resolveSlitmask e st with
    | .error err => .error err
    | .ok slitmask =>
      match gsResolveMask e st slitmask with
      | .error err => .error err
      | .ok mask0 =>
        let acc0 : GSAcc := { sky := fun _ => 0, maskslits := maskslits }
        let fin := (gdslitsOf maskslits).foldl (gs_step e st.npix slitmask) acc0
        if update_crmask then
          match st.sciimg, st.sciivar, st.bpm with
          | some sciimg, some sciivar, some bpm =>
            let crmask := e.lacosmic (fun p => sciimg p - fin.sky p) sciivar
            let mask := build_mask e bpm sciimg sciivar crmask true (some slitmask)
            .ok { st with slitmask := some slitmask, maskslits := some fin.maskslits,
                          global_sky := some fin.sky, crmask := some crmask,
                          mask := some mask }
          | _, _, _ => .error (.typeError "'NoneType' object has no attribute")
        else
          .ok { st with slitmask := some slitmask, maskslits := some fin.maskslits,
                        global_sky := some fin.sky, mask := some mask0 }

/-- The science image of a `proc` result at one pixel (`none` on failure). -/
def procSciAt (r : Except PyError ProcOut) (p : ℕ) : Option ℚ :=
  r.toOption.map fun o => o.sciimg p

/-- The inverse variance of a `proc` result at one pixel. -/
def procIvarAt (r : Except PyError ProcOut) (p : ℕ) : Option ℚ :=
  r.toOption.map fun o => o.sciivar p

/-- The read-noise² image of a `proc` result at one pixel. -/
def procRn2At (r : Except PyError ProcOut) (p : ℕ) : Option ℚ :=
  r.toOption.map fun o => o.rn2img p

/-- The cosmic-ray mask of a `proc` result at one pixel. -/
def procCrAt (r : Except PyError ProcOut) (p : ℕ) : Option Bool :=
  r.toOption.map fun o => o.crmask p

/-- One bit of the composite mask of a `proc` result at one pixel. -/
def procMaskBitAt (r : Except PyError ProcOut) (p bit : ℕ) : Option Bool :=
  r.toOption.map fun o => (o.mask p).testBit bit

/-- The sky model of a `local_skysub_extract` result at one pixel. -/
def lseSkyAt (r : Except PyError LSEOut) (p : ℕ) : Option ℚ :=
  r.toOption.map fun o => o.skymodel p

/-- The model inverse variance of a `local_skysub_extract` result at one pixel. -/
def lseIvarAt (r : Except PyError LSEOut) (p : ℕ) : Option ℚ :=
  r.toOption.map fun o => o.ivarmodel p

/-- The output mask of a `local_skysub_extract` result at one pixel. -/
def lseOutmaskAt (r : Except PyError LSEOut) (p : ℕ) : Option ℕ :=
  r.toOption.map fun o => o.outmask p

/-- The extraction-validity mask of a `local_skysub_extract` result at one pixel. -/
def lseExtractAt (r : Except PyError LSEOut) (p : ℕ) : Option Bool :=
  r.toOption.map fun o => o.extractmask p

/-- The `maskslits` of a `global_skysub` result (empty on failure). -/
def gsMaskslits (r : Except PyError SciState) : List Bool :=
  (match r with
   | .ok st => st.maskslits
   | .error _ => none).getD []

/-- The sky model of a `global_skysub` result at one pixel. -/
def gsSkyAt (r : Except PyError SciState) (p : ℕ) : Option ℚ :=
  match r with
  | .ok st => st.global_sky.map fun g => g p
  | .error _ => none

/-- The state produced by a successful stage call (fresh state on failure). -/
def exceptState (r : Except PyError SciState) : SciState :=
  match r with
  | .ok st => st
  | .error _ => freshScienceImage

/-- A constant raw frame: every pixel has value `a`, raw variance 1 and
read-noise² 0. -/
def constRaw (a : ℚ) : RawFrame :=
  { sciimg := fun _ => a, rawvar := fun _ => 1, rn2img := fun _ => 0 }

/-- An all-good instrument bad-pixel mask. -/
def bpm0 : ℕ → Bool := fun _ => false

/-- Concrete external services for test inputs: saturation 1000, minimum
counts -1000, no cosmic rays, trivial clipping, one-slit slit map, a sky
fitter that fails (fits identically zero) on slit 0 and fits 5 elsewhere,
and a local fitter that marks every pixel invalid. -/
def svcA : Services :=
  { saturation := 1000, mincountsLevel := -1000,
    lacosmic := fun _ _ _ => false,
    sigclipStack := fun imgs _ => imgs.map (fun _ _ => true),
    spectSlitmask := fun _ _ => 0,
    globalFit := fun slit _ => if slit = 0 then 0 else 5,
    localFit := fun _ =>
      { sky := fun _ => 9, obj := fun _ => 0, ivar := fun _ => 1, emask := fun _ => false } }

/-- `svcA` with different cosmic-ray and extraction collaborators (used to
check `_build_mask` ignores them). -/
def svcB : Services :=
  { svcA with
    lacosmic := fun _ _ _ => true,
    localFit := fun _ =>
      { sky := fun _ => 0, obj := fun _ => 1, ivar := fun _ => 2, emask := fun _ => true } }

/-- Services whose cosmic-ray detector flags exactly the frames of constant
value 1 (at every pixel). -/
def svcCr : Services :=
  { svcA with lacosmic := fun img _ _ => decide (img 0 = 1) }

/-- A fully populated one-slit reduction state whose composite mask has the
`SATURATION` bit (value `2^2 = 4`) pre-set at every pixel. -/
def stC1 : SciState :=
  { sciimg := some fun _ => 10, sciivar := some fun _ => 1, rn2img := some fun _ => 0,
    global_sky := some fun _ => 7, tilts := some fun _ => 0, tslits_dict := some 1,
    maskslits := some [false], slitmask := some fun _ => 0,
    mask := some fun _ => 4, crmask := some fun _ => false, bpm := some bpm0,
    npix := 1 }

/-- Populated-state witness images for the slit-isolation run: constant
science image, unit inverse variance, zero read-noise², a two-pixel
detector whose pixel 0 is slit 0 and pixel 1 is slit 1, an all-clear
composite mask and no cosmic rays. -/
def imgG : ℕ → ℚ := fun _ => 10

def ivarG : ℕ → ℚ := fun _ => 1

def rn2G : ℕ → ℚ := fun _ => 0

def smW : ℕ → ℤ := fun p => if p = 0 then 0 else 1

def maskG : ℕ → ℕ := fun _ => 0

def crG : ℕ → Bool := fun _ => false

/-- A processed two-pixel, two-slit state ready for `global_skysub`. -/
def stG : SciState :=
  { sciimg := some imgG, sciivar := some ivarG, rn2img := some rn2G,
    global_sky := none, tilts := none, tslits_dict := none, maskslits := none,
    slitmask := some smW, mask := some maskG, crmask := some crG, bpm := some bpm0,
    npix := 2 }

/-- C2: calling `local_skysub_extract` on a freshly constructed
`ScienceImage` does NOT fail with the named missing-prerequisite
`msgs.error` of `_chk_objs` (which lists `tslits_dict` among the required
quantities): `_get_goodslits` runs first and subscripts
`self.tslits_dict['lcen']` while `tslits_dict` is still `None`, so the call
dies with a null-reference-style `TypeError` before the check is reached.
The claim describes the intended behaviour; the code's own check is
unreachable for this input, which is the code bug. -/
theorem local_skysub_extract_fresh_state_type_error (e : Services) (sobjs : List ℕ)
    (wave : ℕ → ℚ) :
    local_skysub_extract e freshScienceImage sobjs wave none
      = .error (.typeError "'NoneType' object is not subscriptable") := rfl

/-- C7: requesting sigma clipping together with difference imaging (a
nonempty background list) makes `proc` fail at once with the configuration
`msgs.error` of lines 613-615, whatever the frame contents — the science
and background frame lists are arbitrary here, so no frame is read or
stacked before the failure. -/
theorem proc_sigma_clip_with_difference_error (e : Services) (files : List RawFrame)
    (bg0 : RawFrame) (bgrest : List RawFrame) (bpm : ℕ → Bool) :
    proc e files (bg0 :: bgrest) bpm true
      = .error (.pypeitError "You cannot sigma clip with difference imaging as this will reject objects") := by
  have h : (0 : ℕ) < (bg0 :: bgrest).length := by simp
  simp [proc, h]

/-- C10: with exactly two science frames, no background frames and
`sigma_clip=True`, the sigma-clip branch requires more than two frames and
the non-clipping assignment sits in the `else` branch, so `outmask_stack`
is never assigned before its use at line 660: `proc` raises
`UnboundLocalError` instead of returning a combined image. -/
theorem proc_two_frames_sigma_clip_unbound_local (e : Services) (f1 f2 : RawFrame)
    (bpm : ℕ → Bool) :
    proc e [f1, f2] [] bpm true = .error (.unboundLocal "outmask_stack") := rfl

/-- C9: `_build_mask` is a pure, deterministic function of the composite
mask inputs: it reads only its image/ivar/cosmic-ray/bad-pixel/slit-map
arguments, the `mincounts` flag and the detector saturation and
minimum-counts levels — two invocations agreeing on those produce
bitwise-identical masks even if every other collaborator differs, and in
this embedding the state is untouched (the source assigns no attribute). -/
theorem build_mask_pure_function (e1 e2 : Services)
    (hsat : e1.saturation = e2.saturation)
    (hmin : e1.mincountsLevel = e2.mincountsLevel)
    (bpm : ℕ → Bool) (sciimg sciivar : ℕ → ℚ) (crmask : ℕ → Bool)
    (mincounts : Bool) (slitmask : Option (ℕ → ℤ)) :
    build_mask e1 bpm sciimg sciivar crmask mincounts slitmask
      = build_mask e2 bpm sciimg sciivar crmask mincounts slitmask := by
  funext p
  unfold build_mask
  rw [hsat, hmin]

/-- Witness for C9 at concrete inputs: `svcA` and `svcB` share the detector
levels but differ in their cosmic-ray and extraction collaborators, and the
two masks coincide. -/
theorem build_mask_pure_function_witness :
    build_mask svcA bpm0 (fun _ => 3) (fun _ => 1) (fun _ => false) true none
      = build_mask svcB bpm0 (fun _ => 3) (fun _ => 1) (fun _ => false) true none :=
  build_mask_pure_function svcA svcB rfl rfl bpm0 (fun _ => 3) (fun _ => 1)
    (fun _ => false) true none

/-- C3: evaluation of `proc` at the failing input.  Difference-imaging run
(two science frames at -900, one background frame at +900, both within the
per-frame count limits): the combined image is the legitimate difference
-1800, yet the returned composite mask has the `MINCOUNTS` bit set, because
line 672 passes `mincounts=~self.ir_redux` and `~` on the Python bool
`True` is the integer `-2`, which is truthy — the minimum-counts check is
never actually disabled.  The claim (and spec) state the intended
behaviour; the code's `~` on a plain bool is the slip. -/
theorem proc_ir_redux_mincounts_bit_set :
    procSciAt (proc svcA [constRaw (-900), constRaw (-900)] [constRaw 900] bpm0 false) 0
      = some (-1800)
    ∧ procMaskBitAt (proc svcA [constRaw (-900), constRaw (-900)] [constRaw 900] bpm0 false)
        0 bitMincounts = some true := by
  constructor <;>
    norm_num [proc, procStack, procAllFiles, procMaskBitAt, procSciAt, read_stack,
      read_stack_frame, procWeights, combineVal, combineVar, usedWeights, weightsSum,
      combineDen, combineCrPix, build_mask, build_mask_pix, calc_ivar, turn_on, truthy,
      tildeBool, Except.toOption, constRaw, svcA, bpm0, isfiniteQ, bitBPM, bitCR,
      bitSaturation, bitMincounts, bitOffslits, bitIsNan, bitIvar0, bitIvarNan,
      bitExtract, List.replicate_succ, List.zipWith_cons_cons, List.sum_cons,
      List.sum_nil] <;>
    decide

/-- On a fully populated state, `local_skysub_extract` reaches the slit loop
and returns the `lse_core` images (shared helper for the mask-accumulation
and slit-isolation claims). -/
theorem local_skysub_extract_ok (e : Services) (st : SciState) (sobjs : List ℕ)
    (wave : ℕ → ℚ) (si siv rn gsky ti : ℕ → ℚ) (ns : ℕ) (ms : List Bool)
    (sm : ℕ → ℤ) (m : ℕ → ℕ)
    (hsi : st.sciimg = some si) (hsiv : st.sciivar = some siv)
    (hrn : st.rn2img = some rn) (hg : st.global_sky = some gsky)
    (hti : st.tilts = some ti) (hts : st.tslits_dict = some ns)
    (hms : st.maskslits = some ms) (hsm : st.slitmask = some sm)
    (hm : st.mask = some m) :
    local_skysub_extract e st sobjs wave none
      = .ok (lse_core e sm m gsky siv (gdslitsOf ms) sobjs) := by
  simp [local_skysub_extract, get_goodslits, resolveSlitmask, hsi, hsiv, hrn, hg, hti,
    hts, hms, hsm, hm]

/-- C1 (amended): how `local_skysub_extract` extends the composite mask
(lines 507-510).  The output mask starts as a copy of the input composite
mask; the `EXTRACT` bit is OR'd in exactly at pixels that were originally
valid (`self.mask == 0`) and whose extraction-validity is `False`.  A pixel
that entered with a nonzero composite-mask value keeps exactly that value:
its pre-existing bits are never cleared, but — contrary to the original
claim — the `EXTRACT` bit is NOT added there, because `iextract` requires
`self.mask == 0`. -/
theorem local_skysub_extract_mask_accumulation (e : Services) (st : SciState)
    (sobjs : List ℕ) (wave : ℕ → ℚ) (si siv rn gsky ti : ℕ → ℚ) (ns : ℕ)
    (ms : List Bool) (sm : ℕ → ℤ) (m : ℕ → ℕ)
    (hsi : st.sciimg = some si) (hsiv : st.sciivar = some siv)
    (hrn : st.rn2img = some rn) (hg : st.global_sky = some gsky)
    (hti : st.tilts = some ti) (hts : st.tslits_dict = some ns)
    (hms : st.maskslits = some ms) (hsm : st.slitmask = some sm)
    (hm : st.mask = some m) (p : ℕ) :
    (m p ≠ 0 → lseOutmaskAt (local_skysub_extract e st sobjs wave none) p = some (m p))
    ∧ (m p = 0 → lseExtractAt (local_skysub_extract e st sobjs wave none) p = some false →
        lseOutmaskAt (local_skysub_extract e st sobjs wave none) p = some (2 ^ 8)) := by
  rw [local_skysub_extract_ok e st sobjs wave si siv rn gsky ti ns ms sm m hsi hsiv hrn
    hg hti hts hms hsm hm]
  constructor
  · intro hne
    simp [lseOutmaskAt, lse_core, Except.toOption, hne]
  · intro hz hext
    simp [lseExtractAt, lse_core, Except.toOption] at hext
    simp [lseOutmaskAt, lse_core, Except.toOption, hz, hext]

/-- Counterexample to C1 as stated: in the populated one-slit state `stC1`
the composite mask has value 4 (`SATURATION` bit) at pixel 0, the slit is
processed (object list `[0]`) and the extraction fitter marks pixel 0
invalid — yet the returned output mask at pixel 0 is exactly 4: the
pre-existing `SATURATION` bit is there but the `EXTRACT` bit is NOT set,
refuting "BOTH bits set". -/
theorem local_skysub_extract_preexisting_bit_no_extract_cex :
    lseExtractAt (local_skysub_extract svcA stC1 [0] (fun _ => 0) none) 0 = some false
    ∧ lseOutmaskAt (local_skysub_extract svcA stC1 [0] (fun _ => 0) none) 0 = some 4
    ∧ Nat.testBit 4 bitSaturation = true
    ∧ Nat.testBit 4 bitExtract = false := by
  refine ⟨?_, ?_, by decide, by decide⟩ <;>
    simp [local_skysub_extract, get_goodslits, resolveSlitmask, stC1, lse_core,
      lse_step, gdslitsOf, lseExtractAt, lseOutmaskAt, Except.toOption, svcA,
      List.range, List.range.loop]

/-- Witness for the amended C1 at pixel 0 of `stC1`: the pre-masked pixel
keeps exactly its input value 4. -/
theorem local_skysub_extract_mask_accumulation_witness :
    lseOutmaskAt (local_skysub_extract svcA stC1 [0] (fun _ => 0) none) 0 = some 4 :=
  (local_skysub_extract_mask_accumulation svcA stC1 [0] (fun _ => 0)
    (fun _ => 10) (fun _ => 1) (fun _ => 0) (fun _ => 7) (fun _ => 0) 1 [false]
    (fun _ => 0) (fun _ => 4) rfl rfl rfl rfl rfl rfl rfl rfl rfl 0).1 (by decide)

theorem combineVal_split_replicate (n m : ℕ) (hn : n ≠ 0) (hm : m ≠ 0) (a b : ℚ) :
    combineVal (procWeights n m true) (List.replicate n true ++ List.replicate m true)
      (List.replicate n a ++ List.replicate m b) = a - b := by
  have hn' : (n : ℚ) ≠ 0 := Nat.cast_ne_zero.mpr hn
  have hm' : (m : ℚ) ≠ 0 := Nat.cast_ne_zero.mpr hm
  have hws : weightsSum (procWeights n m true)
      (List.replicate n true ++ List.replicate m true) = 0 := by
    unfold weightsSum usedWeights procWeights
    rw [if_pos rfl, List.zipWith_append _ _ _ _ _ (by simp), List.zipWith_replicate',
      List.zipWith_replicate', List.sum_append, List.sum_replicate, List.sum_replicate]
    simp [nsmul_eq_mul]
    field_simp
  unfold combineVal
  rw [hws]
  unfold combineDen usedWeights procWeights
  rw [if_pos rfl, List.zipWith_append _ _ _ _ _ (by simp), List.zipWith_replicate',
    List.zipWith_replicate', List.zipWith_append _ _ _ _ _ (by simp),
    List.zipWith_replicate', List.zipWith_replicate', List.sum_append,
    List.sum_replicate, List.sum_replicate]
  simp [nsmul_eq_mul]
  field_simp
  ring

theorem proc_difference_weights_combined_value (e : Services) (bpm : ℕ → Bool)
    (a b : ℚ) (nsci nbg : ℕ) (h2 : 2 ≤ nsci) (h1 : 1 ≤ nbg)
    (fA fB : RawFrame)
    (hav : ∀ q, fA.sciimg q = a) (hbv : ∀ q, fB.sciimg q = b)
    (hA : ∀ q, (read_stack_frame e false bpm fA).mask q = 0)
    (hB : ∀ q, (read_stack_frame e false bpm fB).mask q = 0)
    (p : ℕ) :
    procSciAt (proc e (List.replicate nsci fA) (List.replicate nbg fB) bpm false) p
      = some (a - b) := by
  have hb0 : 0 < nbg := by omega
  have hs1 : 1 < nsci := by omega
  have e1 : procStack e (List.replicate nsci fA) (List.replicate nbg fB) bpm
      = List.replicate nsci (read_stack_frame e false bpm fA)
        ++ List.replicate nbg (read_stack_frame e false bpm fB) := by
    simp [procStack, procAllFiles, read_stack, List.map_replicate, hb0]
  simp only [proc, e1, procAllFiles, List.length_replicate, procSciAt]
  norm_num [hb0, hs1, Except.toOption, List.map_append, List.map_replicate, hA, hB]
  rw [List.replicate_add]
  have eA : (read_stack_frame e false bpm fA).sciimg p = a := by
    simp [read_stack_frame, hav]
  have eB : (read_stack_frame e false bpm fB).sciimg p = b := by
    simp [read_stack_frame, hbv]
  rw [eA, eB]
  exact combineVal_split_replicate nsci nbg (by omega) (by omega) a b

theorem combineCrPix_eq_all (crs : List Bool) :
    combineCrPix crs crs.length = decide (∀ b ∈ crs, b = true) := by
  unfold combineCrPix
  refine decide_eq_decide.mpr ?_
  rw [List.count_eq_length]
  constructor <;> intro h b hb <;> exact (h b hb).symm

theorem combineDen_ne_zero (ws : ℚ) : combineDen ws ≠ 0 := by
  unfold combineDen
  by_cases h : ws = 0 <;> simp [h]

theorem usedWeights_eq_zero (weights : List ℚ) (outs : List Bool)
    (h : ∀ o ∈ outs, o = false) :
    usedWeights weights outs = List.replicate (min weights.length outs.length) 0 := by
  induction weights generalizing outs with
  | nil => simp [usedWeights]
  | cons w ws ih =>
    cases outs with
    | nil => simp [usedWeights]
    | cons o os =>
      have ho : o = false := h o (by simp)
      have ih' := ih os (fun x hx => h x (by simp [hx]))
      have hmin : (ws.length + 1) ⊓ (os.length + 1) = (ws.length ⊓ os.length) + 1 := by
        omega
      simp only [usedWeights] at ih' ⊢
      simp [ho, List.length_cons, hmin, List.replicate_succ]
      simpa using ih'

theorem sum_zipWith_mul_replicate_zero (vals : List ℚ) (k : ℕ) :
    (List.zipWith (· * ·) vals (List.replicate k 0)).sum = 0 := by
  induction vals generalizing k with
  | nil => simp
  | cons v vs ih =>
    cases k with
    | zero => simp
    | succ k => simp [List.replicate_succ, ih]

theorem combineVal_no_used (weights : List ℚ) (outs : List Bool) (vals : List ℚ)
    (h : ∀ o ∈ outs, o = false) : combineVal weights outs vals = 0 := by
  unfold combineVal weightsSum
  rw [usedWeights_eq_zero weights outs h]
  rw [sum_zipWith_mul_replicate_zero]
  simp

theorem combineVar_no_used (weights : List ℚ) (outs : List Bool) (vals : List ℚ)
    (h : ∀ o ∈ outs, o = false) : combineVar weights outs vals = 0 := by
  unfold combineVar weightsSum
  rw [usedWeights_eq_zero weights outs h]
  have : (List.replicate (min weights.length outs.length) (0:ℚ)).map (fun w => w ^ 2)
      = List.replicate (min weights.length outs.length) 0 := by
    simp [List.map_replicate]
  rw [this, sum_zipWith_mul_replicate_zero]
  simp

theorem proc_crmask_all_frames_conjunction (e : Services) (bpm : ℕ → Bool)
    (f1 f2 : RawFrame) (fs : List RawFrame) (p : ℕ) :
    procCrAt (proc e (f1 :: f2 :: fs) [] bpm false) p
      = some (decide (∀ f ∈ procStack e (f1 :: f2 :: fs) [] bpm, f.crmask p = true))
    ∧ (((procStack e (f1 :: f2 :: fs) [] bpm).map (fun f => f.crmask p)).count true
          = (f1 :: f2 :: fs).length - 1 →
        procCrAt (proc e (f1 :: f2 :: fs) [] bpm false) p = some false) := by
  have hs1 : 1 < (f1 :: f2 :: fs).length := by simp
  have hlen : (procStack e (f1 :: f2 :: fs) [] bpm).length = (f1 :: f2 :: fs).length := by
    simp [procStack, procAllFiles, read_stack]
  have hrun : procCrAt (proc e (f1 :: f2 :: fs) [] bpm false) p
      = some (combineCrPix ((procStack e (f1 :: f2 :: fs) [] bpm).map (fun f => f.crmask p))
          (procAllFiles (f1 :: f2 :: fs) []).length) := by
    simp only [proc, List.length_nil, List.length_cons, procCrAt]
    norm_num [Except.toOption]
  have hnf : (procAllFiles (f1 :: f2 :: fs) []).length = (f1 :: f2 :: fs).length := by
    simp [procAllFiles]
  have hmaplen : ((procStack e (f1 :: f2 :: fs) [] bpm).map (fun f => f.crmask p)).length
      = (f1 :: f2 :: fs).length := by
    simp [hlen]
  constructor
  · rw [hrun, hnf, ← hmaplen, combineCrPix_eq_all]
    congr 1
    refine decide_eq_decide.mpr ?_
    constructor
    · intro h f hf
      exact h (f.crmask p) (List.mem_map_of_mem _ hf)
    · intro h b hb
      rw [List.mem_map] at hb
      obtain ⟨f, hf, rfl⟩ := hb
      exact h f hf
  · intro hcount
    rw [hrun, hnf]
    unfold combineCrPix
    have hne : ((procStack e (f1 :: f2 :: fs) [] bpm).map (fun f => f.crmask p)).count true
        ≠ fs.length + 1 + 1 := by
      simp only [List.length_cons] at hcount
      omega
    simp [hne]

theorem proc_no_used_weights_zero_value (e : Services) (bpm : ℕ → Bool)
    (files bgfiles : List RawFrame) (p : ℕ) (h2 : 1 < files.length)
    (hmask : ∀ f ∈ procStack e files bgfiles bpm, f.mask p ≠ 0) :
    procSciAt (proc e files bgfiles bpm false) p = some 0
    ∧ procRn2At (proc e files bgfiles bpm false) p = some 0
    ∧ procIvarAt (proc e files bgfiles bpm false) p = some 0
    ∧ (∀ ws : ℚ, combineDen ws ≠ 0) := by
  have houts : ∀ o ∈ (procStack e files bgfiles bpm).map (fun f => decide (f.mask p = 0)),
      o = false := by
    intro o ho
    rw [List.mem_map] at ho
    obtain ⟨f, hf, rfl⟩ := ho
    simp [hmask f hf]
  refine ⟨?_, ?_, ?_, combineDen_ne_zero⟩
  · simp only [proc, procSciAt]
    norm_num [h2, Except.toOption]
    exact combineVal_no_used _ _ _ houts
  · simp only [proc, procRn2At]
    norm_num [h2, Except.toOption]
    exact combineVar_no_used _ _ _ houts
  · simp only [proc, procIvarAt]
    norm_num [h2, Except.toOption]
    have houts' : ∀ o ∈ List.map ((fun o => o p) ∘ fun f q => decide (f.mask q = 0))
        (procStack e files bgfiles bpm), o = false := by
      simpa [Function.comp] using houts
    rw [combineVar_no_used _ _ _ houts']
    norm_num [calc_ivar]

theorem proc_difference_single_sci_frame_cex :
    procSciAt (proc svcA [constRaw 1] [constRaw 1] bpm0 false) 0 = some 1
    ∧ (1 : ℚ) ≠ 1 - 1 := by
  refine ⟨by decide, by norm_num⟩

theorem proc_difference_weights_combined_value_witness :
    procSciAt (proc svcA (List.replicate 3 (constRaw 3)) (List.replicate 2 (constRaw 1))
      bpm0 false) 0 = some (3 - 1) :=
  proc_difference_weights_combined_value svcA bpm0 3 1 3 2 (by norm_num) (by norm_num)
    (constRaw 3) (constRaw 1) (fun _ => rfl) (fun _ => rfl)
    (fun q => by
      norm_num [read_stack_frame, build_mask, build_mask_pix, constRaw, svcA, bpm0,
        calc_ivar, isfiniteQ, turn_on])
    (fun q => by
      norm_num [read_stack_frame, build_mask, build_mask_pix, constRaw, svcA, bpm0,
        calc_ivar, isfiniteQ, turn_on]) 0

theorem proc_crmask_all_frames_conjunction_witness :
    procCrAt (proc svcCr [constRaw 1, constRaw 2] [] bpm0 false) 0 = some false :=
  (proc_crmask_all_frames_conjunction svcCr bpm0 (constRaw 1) (constRaw 2) [] 0).2 (by
    norm_num [procStack, procAllFiles, read_stack, read_stack_frame, svcCr, svcA,
      constRaw, List.count_cons, List.count_nil])

theorem proc_zero_weight_sum_nonzero_value_cex :
    weightsSum (procWeights 2 1 true)
        ((procStack svcA [constRaw 3, constRaw 3] [constRaw 1] bpm0).map
          (fun f => decide (f.mask 0 = 0))) = 0
    ∧ procSciAt (proc svcA [constRaw 3, constRaw 3] [constRaw 1] bpm0 false) 0 = some 2
    ∧ (2 : ℚ) ≠ 0 := by
  refine ⟨?_, ?_, by norm_num⟩ <;>
    norm_num [proc, procStack, procAllFiles, procSciAt, read_stack, read_stack_frame,
      procWeights, combineVal, combineVar, usedWeights, weightsSum, combineDen,
      combineCrPix, build_mask, build_mask_pix, calc_ivar, turn_on, truthy, tildeBool,
      Except.toOption, constRaw, svcA, bpm0, isfiniteQ, List.replicate_succ,
      List.zipWith_cons_cons, List.sum_cons, List.sum_nil]

theorem proc_no_used_weights_zero_value_witness :
    procSciAt (proc svcA [constRaw (-5000), constRaw (-5000)] [constRaw (-5000)]
      bpm0 false) 0 = some 0 :=
  (proc_no_used_weights_zero_value svcA bpm0 [constRaw (-5000), constRaw (-5000)]
    [constRaw (-5000)] 0 (by norm_num)
    (by
      intro f hf
      simp [procStack, procAllFiles, read_stack] at hf
      subst hf
      norm_num [read_stack_frame, build_mask, build_mask_pix, constRaw, svcA, bpm0,
        calc_ivar, isfiniteQ, turn_on, bitMincounts])).1

theorem sum_map_if_region (l : List ℕ) (region : ℕ → Bool) (h : ∀ p ∈ l, region p = true)
    (fit g : ℕ → ℚ) :
    (l.map (fun p => if region p then fit p else g p)).sum = (l.map fit).sum := by
  induction l with
  | nil => rfl
  | cons a t ih =>
    have ha := h a (by simp)
    simp [ha, ih (fun p hp => h p (by simp [hp]))]

theorem maskedSum_write (npix : ℕ) (region : ℕ → Bool) (fit g : ℕ → ℚ) :
    maskedSum npix region (fun p => if region p then fit p else g p)
      = maskedSum npix region fit := by
  unfold maskedSum
  exact sum_map_if_region _ _ (fun p hp => (List.mem_filter.mp hp).2) _ _

theorem gs_step_maskslits_eq (e : Services) (npix : ℕ) (sm : ℕ → ℤ) (acc : GSAcc)
    (slit : ℕ) :
    (gs_step e npix sm acc slit).maskslits
      = if slitFailed e npix sm slit then acc.maskslits.set slit true
        else acc.maskslits := by
  simp only [gs_step]
  rw [maskedSum_write]
  rfl

theorem gs_step_sky_eq (e : Services) (npix : ℕ) (sm : ℕ → ℤ) (acc : GSAcc)
    (slit p : ℕ) :
    (gs_step e npix sm acc slit).sky p
      = if sm p = (slit : ℤ) then e.globalFit slit p else acc.sky p := by
  unfold gs_step
  by_cases h : sm p = (slit : ℤ) <;> simp [h]

theorem gs_step_maskslits_length (e : Services) (npix : ℕ) (sm : ℕ → ℤ) (acc : GSAcc)
    (slit : ℕ) :
    (gs_step e npix sm acc slit).maskslits.length = acc.maskslits.length := by
  rw [gs_step_maskslits_eq]
  split <;> simp

theorem getD_set_self (l : List Bool) (i : ℕ) (b d : Bool) (h : i < l.length) :
    (l.set i b).getD i d = b := by
  simp [List.getD_eq_getElem?_getD, List.getElem?_set_self h]

theorem getD_set_ne (l : List Bool) (i j : ℕ) (b d : Bool) (h : i ≠ j) :
    (l.set i b).getD j d = l.getD j d := by
  simp [List.getD_eq_getElem?_getD, List.getElem?_set_ne h]

theorem gs_foldl_maskslits_length (e : Services) (npix : ℕ) (sm : ℕ → ℤ) (l : List ℕ)
    (acc : GSAcc) :
    ((l.foldl (gs_step e npix sm) acc).maskslits).length = acc.maskslits.length := by
  induction l generalizing acc with
  | nil => rfl
  | cons a t ih =>
    rw [List.foldl_cons, ih, gs_step_maskslits_length]

theorem gs_foldl_maskslits_getD (e : Services) (npix : ℕ) (sm : ℕ → ℤ) (l : List ℕ)
    (acc : GSAcc) (s : ℕ) (hs : s < acc.maskslits.length) :
    ((l.foldl (gs_step e npix sm) acc).maskslits).getD s false
      = (acc.maskslits.getD s false
          || (decide (s ∈ l) && decide (slitFailed e npix sm s))) := by
  induction l generalizing acc with
  | nil => simp
  | cons a t ih =>
    rw [List.foldl_cons]
    have hlen : s < (gs_step e npix sm acc a).maskslits.length := by
      rw [gs_step_maskslits_length]
      exact hs
    rw [ih _ hlen, gs_step_maskslits_eq]
    by_cases hsa : s = a
    · subst hsa
      by_cases hf : slitFailed e npix sm s
      · rw [if_pos hf, getD_set_self _ _ _ _ hs]
        simp [hf]
      · rw [if_neg hf]
        simp [hf]
    · by_cases hf : slitFailed e npix sm a
      · rw [if_pos hf, getD_set_ne _ _ _ _ _ (Ne.symm hsa)]
        simp [List.mem_cons, hsa]
      · rw [if_neg hf]
        simp [List.mem_cons, hsa]

theorem gs_foldl_sky_notmem (e : Services) (npix : ℕ) (sm : ℕ → ℤ) (l : List ℕ)
    (acc : GSAcc) (p : ℕ) (h : ∀ s ∈ l, sm p ≠ (s : ℤ)) :
    (l.foldl (gs_step e npix sm) acc).sky p = acc.sky p := by
  induction l generalizing acc with
  | nil => rfl
  | cons a t ih =>
    rw [List.foldl_cons, ih _ (fun s hs => h s (by simp [hs])), gs_step_sky_eq]
    simp [h a (by simp)]

theorem gs_foldl_sky_mem (e : Services) (npix : ℕ) (sm : ℕ → ℤ) (l : List ℕ)
    (acc : GSAcc) (c p : ℕ) (hmem : c ∈ l) (hp : sm p = (c : ℤ)) :
    (l.foldl (gs_step e npix sm) acc).sky p = e.globalFit c p := by
  induction l generalizing acc with
  | nil => simp at hmem
  | cons a t ih =>
    rw [List.foldl_cons]
    by_cases hct : c ∈ t
    · exact ih _ hct
    · have hca : c = a := by
        rcases List.mem_cons.mp hmem with h | h
        · exact h
        · exact absurd h hct
      subst hca
      have hnt : ∀ s ∈ t, sm p ≠ (s : ℤ) := by
        intro s hs hcontra
        rw [hp] at hcontra
        have : c = s := by exact_mod_cast hcontra
        exact hct (this ▸ hs)
      rw [gs_foldl_sky_notmem e npix sm t _ p hnt, gs_step_sky_eq]
      simp [hp]

theorem lse_foldl_region_untouched (e : Services) (sm : ℕ → ℤ) (sobjs : List ℕ)
    (l : List ℕ) (acc : LSEAcc) (p : ℕ) (h : ∀ s ∈ l, sm p ≠ (s : ℤ)) :
    (l.foldl (lse_step e sm sobjs) acc).skymodel p = acc.skymodel p
    ∧ (l.foldl (lse_step e sm sobjs) acc).ivarmodel p = acc.ivarmodel p := by
  induction l generalizing acc with
  | nil => exact ⟨rfl, rfl⟩
  | cons a t ih =>
    rw [List.foldl_cons]
    obtain ⟨h1, h2⟩ := ih (lse_step e sm sobjs acc a) (fun s hs => h s (by simp [hs]))
    rw [h1, h2]
    have ha := h a (by simp)
    unfold lse_step
    by_cases hobj : sobjs.any (fun s => s = a) <;> simp [hobj, ha]

theorem mem_gdslitsOf (ms : List Bool) (t : ℕ) :
    t ∈ gdslitsOf ms ↔ t < ms.length ∧ ms.getD t true = false := by
  simp [gdslitsOf, List.mem_filter, List.mem_range]

theorem getD_lt_irrel (ms : List Bool) (t : ℕ) (h : t < ms.length) (d1 d2 : Bool) :
    ms.getD t d1 = ms.getD t d2 := by
  simp [List.getD_eq_getElem?_getD, List.getElem?_eq_getElem h]

theorem global_skysub_zero_sum_slit_isolation
    (e : Services) (st : SciState) (nslits : ℕ) (tilts : ℕ → ℚ) (update_crmask : Bool)
    (ms0 : List Bool) (si siv rn : ℕ → ℚ) (sm : ℕ → ℤ) (m0 : ℕ → ℕ) (cr0 bpmf : ℕ → Bool)
    (hsi : st.sciimg = some si) (hsiv : st.sciivar = some siv) (hrn : st.rn2img = some rn)
    (hsm : st.slitmask = some sm) (hm : st.mask = some m0) (hcr : st.crmask = some cr0)
    (hbpm : st.bpm = some bpmf)
    (s : ℕ) (hlen : s < ms0.length) (hgood : ms0.getD s false = false)
    (hfail : slitFailed e st.npix sm s) (sobjs : List ℕ) (wave : ℕ → ℚ) :
    (gsMaskslits (global_skysub e st nslits tilts update_crmask (some ms0))).getD s false
      = true
    ∧ (∀ t, t < ms0.length → t ≠ s →
        (gsMaskslits (global_skysub e st nslits tilts update_crmask (some ms0))).getD t false
          = (ms0.getD t false || decide (slitFailed e st.npix sm t)))
    ∧ (∀ t, t < ms0.length → ms0.getD t false = false → ∀ p, sm p = (t : ℤ) →
        gsSkyAt (global_skysub e st nslits tilts update_crmask (some ms0)) p
          = some (e.globalFit t p))
    ∧ (∀ p, sm p = (s : ℤ) →
        lseSkyAt (local_skysub_extract e
          (exceptState (global_skysub e st nslits tilts update_crmask (some ms0)))
          sobjs wave none) p = some (e.globalFit s p)
        ∧ lseIvarAt (local_skysub_extract e
          (exceptState (global_skysub e st nslits tilts update_crmask (some ms0)))
          sobjs wave none) p = some (siv p)) := by
  set fin := (gdslitsOf ms0).foldl (gs_step e st.npix sm)
    { sky := fun _ => 0, maskslits := ms0 } with hfin
  have hms' : gsMaskslits (global_skysub e st nslits tilts update_crmask (some ms0))
      = fin.maskslits := by
    cases update_crmask <;>
      simp [global_skysub, gsMaskslits, get_goodslits, resolveSlitmask, gsResolveMask,
        hsi, hsiv, hrn, hsm, hm, hcr, hbpm, hfin]
  have hsky' : ∀ p, gsSkyAt (global_skysub e st nslits tilts update_crmask (some ms0)) p
      = some (fin.sky p) := by
    intro p
    cases update_crmask <;>
      simp [global_skysub, gsSkyAt, get_goodslits, resolveSlitmask, gsResolveMask,
        hsi, hsiv, hrn, hsm, hm, hcr, hbpm, hfin]
  have hmemgd : ∀ t, t < ms0.length → ms0.getD t false = false → t ∈ gdslitsOf ms0 := by
    intro t ht hg
    rw [mem_gdslitsOf]
    exact ⟨ht, (getD_lt_irrel ms0 t ht true false).trans hg⟩
  have hsmem : s ∈ gdslitsOf ms0 := hmemgd s hlen hgood
  have hacc0 : s < (GSAcc.mk (fun _ => (0:ℚ)) ms0).maskslits.length := hlen
  have hgetD : ∀ t, t < ms0.length → fin.maskslits.getD t false
      = (ms0.getD t false || (decide (t ∈ gdslitsOf ms0) && decide (slitFailed e st.npix sm t))) := by
    intro t ht
    rw [hfin, gs_foldl_maskslits_getD e st.npix sm (gdslitsOf ms0) _ t ht]
  have hmark : fin.maskslits.getD s false = true := by
    rw [hgetD s hlen, hgood]
    simp [hsmem, hfail]
  have hfinlen : fin.maskslits.length = ms0.length := by
    rw [hfin, gs_foldl_maskslits_length]
  refine ⟨by rw [hms']; exact hmark, ?_, ?_, ?_⟩
  · intro t ht hts
    rw [hms', hgetD t ht]
    by_cases hgt : ms0.getD t false = true
    · have hgt2 : ms0[t]?.getD false = true := by
        rw [← List.getD_eq_getElem?_getD]
        exact hgt
      simp [hgt2]
    · have hgt' : ms0.getD t false = false := by
        cases h : ms0.getD t false
        · rfl
        · exact absurd h hgt
      have hgt2 : ms0[t]?.getD false = false := by
        rw [← List.getD_eq_getElem?_getD]
        exact hgt'
      simp [hgt2, hmemgd t ht hgt']
  · intro t ht hg p hp
    rw [hsky' p, hfin]
    rw [gs_foldl_sky_mem e st.npix sm (gdslitsOf ms0) _ t p (hmemgd t ht hg) hp]
  · intro p hp
    -- the state handed to local_skysub_extract
    have hstf : ∀ F : SciState → Option (ℕ → ℚ),
        True := fun _ => trivial
    have h1 : (exceptState (global_skysub e st nslits tilts update_crmask (some ms0))).sciimg
        = some si := by
      cases update_crmask <;>
        simp [global_skysub, exceptState, get_goodslits, resolveSlitmask, gsResolveMask,
          hsi, hsiv, hrn, hsm, hm, hcr, hbpm]
    have h2 : (exceptState (global_skysub e st nslits tilts update_crmask (some ms0))).sciivar
        = some siv := by
      cases update_crmask <;>
        simp [global_skysub, exceptState, get_goodslits, resolveSlitmask, gsResolveMask,
          hsi, hsiv, hrn, hsm, hm, hcr, hbpm]
    have h3 : (exceptState (global_skysub e st nslits tilts update_crmask (some ms0))).rn2img
        = some rn := by
      cases update_crmask <;>
        simp [global_skysub, exceptState, get_goodslits, resolveSlitmask, gsResolveMask,
          hsi, hsiv, hrn, hsm, hm, hcr, hbpm]
    have h4 : (exceptState (global_skysub e st nslits tilts update_crmask (some ms0))).global_sky
        = some fin.sky := by
      cases update_crmask <;>
        simp [global_skysub, exceptState, get_goodslits, resolveSlitmask, gsResolveMask,
          hsi, hsiv, hrn, hsm, hm, hcr, hbpm, hfin]
    have h5 : (exceptState (global_skysub e st nslits tilts update_crmask (some ms0))).tilts
        = some tilts := by
      cases update_crmask <;>
        simp [global_skysub, exceptState, get_goodslits, resolveSlitmask, gsResolveMask,
          hsi, hsiv, hrn, hsm, hm, hcr, hbpm]
    have h6 : (exceptState (global_skysub e st nslits tilts update_crmask (some ms0))).tslits_dict
        = some nslits := by
      cases update_crmask <;>
        simp [global_skysub, exceptState, get_goodslits, resolveSlitmask, gsResolveMask,
          hsi, hsiv, hrn, hsm, hm, hcr, hbpm]
    have h7 : (exceptState (global_skysub e st nslits tilts update_crmask (some ms0))).maskslits
        = some fin.maskslits := by
      cases update_crmask <;>
        simp [global_skysub, exceptState, get_goodslits, resolveSlitmask, gsResolveMask,
          hsi, hsiv, hrn, hsm, hm, hcr, hbpm, hfin]
    have h8 : (exceptState (global_skysub e st nslits tilts update_crmask (some ms0))).slitmask
        = some sm := by
      cases update_crmask <;>
        simp [global_skysub, exceptState, get_goodslits, resolveSlitmask, gsResolveMask,
          hsi, hsiv, hrn, hsm, hm, hcr, hbpm]
    have h9 : ∃ mm, (exceptState (global_skysub e st nslits tilts update_crmask (some ms0))).mask
        = some mm := by
      cases update_crmask <;>
        simp [global_skysub, exceptState, get_goodslits, resolveSlitmask, gsResolveMask,
          hsi, hsiv, hrn, hsm, hm, hcr, hbpm]
    obtain ⟨mm, h9⟩ := h9
    rw [local_skysub_extract_ok e _ sobjs wave si siv rn fin.sky tilts nslits
      fin.maskslits sm mm h1 h2 h3 h4 h5 h6 h7 h8 h9]
    have hnotin : ∀ t ∈ gdslitsOf fin.maskslits, sm p ≠ (t : ℤ) := by
      intro t htg hcontra
      rw [mem_gdslitsOf] at htg
      obtain ⟨htl, htf⟩ := htg
      have hts : t = s := by
        rw [hp] at hcontra
        exact_mod_cast hcontra.symm
      subst hts
      rw [getD_lt_irrel fin.maskslits t htl true false, hmark] at htf
      exact Bool.false_ne_true htf.symm
    obtain ⟨hsk, hiv⟩ := lse_foldl_region_untouched e sm sobjs (gdslitsOf fin.maskslits)
      { skymodel := fin.sky, objmodel := fun _ => 0, ivarmodel := siv,
        extractmask := fun q => decide (mm q = 0) } p hnotin
    constructor
    · simp only [lseSkyAt, lse_core, Except.toOption, Option.map]
      rw [hsk]
      show some (fin.sky p) = some (e.globalFit s p)
      rw [hfin, gs_foldl_sky_mem e st.npix sm (gdslitsOf ms0) _ s p hsmem hp]
    · simp only [lseIvarAt, lse_core, Except.toOption, Option.map]
      rw [hiv]

theorem global_skysub_zero_sum_slit_isolation_witness :
    (gsMaskslits (global_skysub svcA stG 2 (fun _ => 0) false (some [false, false]))).getD
      0 false = true
    ∧ gsSkyAt (global_skysub svcA stG 2 (fun _ => 0) false (some [false, false])) 1
        = some (svcA.globalFit 1 1)
    ∧ lseSkyAt (local_skysub_extract svcA
        (exceptState (global_skysub svcA stG 2 (fun _ => 0) false (some [false, false])))
        [1] (fun _ => 0) none) 0 = some (svcA.globalFit 0 0)
    ∧ lseIvarAt (local_skysub_extract svcA
        (exceptState (global_skysub svcA stG 2 (fun _ => 0) false (some [false, false])))
        [1] (fun _ => 0) none) 0 = some (ivarG 0) := by
  have h := global_skysub_zero_sum_slit_isolation svcA stG 2 (fun _ => 0) false
    [false, false] imgG ivarG rn2G smW maskG crG bpm0 rfl rfl rfl rfl rfl rfl rfl
    0 (by norm_num) (by decide)
    (by norm_num [slitFailed, maskedSum, smW, svcA, stG, List.range_succ, List.range_zero])
    [1] (fun _ => 0)
  exact ⟨h.1, h.2.2.1 1 (by norm_num) (by decide) 1 (by decide),
    (h.2.2.2 0 (by decide)).1, (h.2.2.2 0 (by decide)).2⟩
